import Mathlib

/-
Shallow embedding of the Finance-Loan-Chatbot service (src/main.py).

The record store `loan_data` is external data (loaded from data.json, which is
owned by the Record Store Adapter); records carry the fields of the spec's
CustomerRecord data model.  The `dpd` field is optional because the code reads
it with `record.get("dpd", 0)`.  The language model behind `create_agent` is an
external collaborator; the endpoint is parameterised over the function
`agentF : List BaseMessage -> List BaseMessage` it realises
(`run_agent_with_history`), and over the fresh uuid string the endpoint would
generate.
-/

namespace FinanceLoanChatbot

/-- CustomerRecord: identity plus loan snapshot, as read from the record
store.  `dpd` is optional since the code defaults it with `get("dpd", 0)`. -/
structure CustomerRecord where
  customer_name : String
  total_due : Int
  due_date : String
  dpd : Option Int
deriving DecidableEq

/-- The record store: customer id keyed map, embedded as an association
list (Python dict keys are unique; first match models `dict.get`). -/
abbrev Store := List (String × CustomerRecord)

/-- Embeds `loan_data.get(customer_id)`. -/
def storeLookup (store : Store) (cid : String) : Option CustomerRecord :=
  (store.find? (fun p => p.1 == cid)).map Prod.snd

/-- Structured tool return payloads: the full record dict returned by
`get_customer_details`, the loan dict built by `get_loan_details`, or an
error dict `{"error": msg}`. -/
inductive ToolPayload where
  | record (r : CustomerRecord)
  | loan (customer_name : String) (total_due : Int) (due_date : String) (dpd : Int)
  | err (msg : String)
deriving DecidableEq

/-- True exactly on loan payloads. -/
def ToolPayload.isLoan : ToolPayload → Bool
  | .loan _ _ _ _ => true
  | _ => false

/-- Embeds the tool `get_customer_details`:
`return loan_data.get(customer_id, {"error": "Customer ID not found"})`. -/
def get_customer_details (store : Store) (customer_id : String) : ToolPayload :=
  match storeLookup store customer_id with
  | some r => ToolPayload.record r
  | none => ToolPayload.err "Customer ID not found"

/-- Embeds the tool `get_loan_details`: looks the record up, and unless the
supplied name equals the stored `customer_name` exactly, answers the
`{"error": "No due amount found."}` payload.  (The source guard
`if not record or record.get("customer_name") != customer_name` also treats an
empty record dict as absent; a structured CustomerRecord is never empty.) -/
def get_loan_details (store : Store) (customer_id customer_name : String) :
    ToolPayload :=
  match storeLookup store customer_id with
  | none => ToolPayload.err "No due amount found."
  | some record =>
    if record.customer_name == customer_name then
      ToolPayload.loan record.customer_name record.total_due record.due_date
        (record.dpd.getD 0)
    else ToolPayload.err "No due amount found."

/-- State-passing form of `get_customer_details`: the Python body performs a
single `dict.get` on the module-level `loan_data` and contains no assignment,
so the store component is returned as received. -/
def get_customer_details_st (store : Store) (customer_id : String) :
    ToolPayload × Store :=
  (get_customer_details store customer_id, store)

/-- Runs a sequence of `get_customer_details` calls, threading the store. -/
def runLookups (store : Store) (cids : List String) : Store :=
  cids.foldl (fun st c => (get_customer_details_st st c).2) store

/-- Conversation turns, after langchain message classes: HumanMessage,
AIMessage, ToolMessage, SystemMessage. -/
inductive BaseMessage where
  | human (content : String)
  | ai (content : String)
  | toolMsg (content : String)
  | system (content : String)
deriving DecidableEq

/-- Recognises AI messages (`isinstance(msg, AIMessage)`). -/
def BaseMessage.isAI : BaseMessage → Bool
  | .ai _ => true
  | _ => false

abbrev SessionHistory := List BaseMessage

/-- The in-memory session store `sessions: Dict[str, SessionHistory]`. -/
abbrev Sessions := List (String × SessionHistory)

/-- Embeds `sessions.get(session_id)`. -/
def sget (s : Sessions) (k : String) : Option SessionHistory :=
  (s.find? (fun p => p.1 == k)).map Prod.snd

/-- Embeds the dict assignment `sessions[session_id] = history`. -/
def sset (s : Sessions) (k : String) (v : SessionHistory) : Sessions :=
  if (s.find? (fun p => p.1 == k)).isSome then
    s.map (fun p => if p.1 == k then (k, v) else p)
  else s ++ [(k, v)]

/-- Fixed fallback reply when the history holds no AI message. -/
def fallbackReply : String := "I'm sorry, I couldn't generate a response."

/-- Scans a message list front to back for the first AI message; the code
iterates `reversed(history)`, so this is applied to the reversed history. -/
def lastAIScan : List BaseMessage → String
  | [] => fallbackReply
  | BaseMessage.ai c :: _ => c
  | _ :: rest => lastAIScan rest

/-- Embeds `extract_last_ai_reply`: content of the last AI message in the
history, else the fixed fallback string. -/
def extract_last_ai_reply (history : SessionHistory) : String :=
  lastAIScan history.reverse

/-- The request body model (`ChatRequest`), with Optional fields. -/
structure ChatRequest where
  session_id : Option String := none
  customer_id : Option String := none
  message : Option String := none
  new_call : Bool := false
deriving DecidableEq

/-- The response body model (`ChatResponse`). -/
structure ChatResponse where
  session_id : String
  reply : String
deriving DecidableEq

/-- An `HTTPException(status_code, detail)` raised by the endpoint. -/
structure HTTPError where
  status : Nat
  detail : String
deriving DecidableEq

/-- Python truthiness of an `Optional[str]`: `None` and `""` are falsy. -/
def truthy : Option String → Bool
  | none => false
  | some s => s != ""

/-- The internal seed instruction built for a new call (`init_text`). -/
def init_text (cid : String) : String :=
  "Start an outbound collection call for customer id " ++ cid ++
  ". First, look up their details using tools if needed, then say: " ++
  "'Hello, this is Jiya calling from ABC Finance. Am I speaking with <customer_name>?'"

/-- Embeds `session_id = payload.session_id or str(uuid.uuid4())`; the fresh
uuid the endpoint would draw is passed in as `freshId`. -/
def resolved_session_id (freshId : String) (p : ChatRequest) : String :=
  match p.session_id with
  | some s => if s == "" then freshId else s
  | none => freshId

/-- Embeds the branch structure of `chat_endpoint` (lines 172-194 of
src/main.py): the condition of the new-call branch. -/
def newCallPath (sessions : Sessions) (sid : String) (p : ChatRequest) : Bool :=
  p.new_call || ((sget sessions sid).getD []).isEmpty

/-- The history handed to the agent, or the HTTPException raised before the
agent runs: seeds `[HumanMessage(init_text)]` on the new-call path (requiring
a truthy customer_id), appends the message as a human turn on the continuing
path (requiring a truthy message), and errors 400 otherwise. -/
def pre_agent_history (sessions : Sessions) (sid : String) (p : ChatRequest) :
    Except HTTPError SessionHistory :=
  if p.new_call || ((sget sessions sid).getD []).isEmpty then
    match p.customer_id with
    | some cid =>
      if cid == "" then
        Except.error ⟨400, "customer_id is required to start a new call."⟩
      else Except.ok [BaseMessage.human (init_text cid)]
    | none =>
      Except.error ⟨400, "customer_id is required to start a new call."⟩
  else
    match p.message with
    | some m =>
      if m == "" then
        Except.error ⟨400, "Either new_call must be true or a message must be provided."⟩
      else Except.ok ((sget sessions sid).getD [] ++ [BaseMessage.human m])
    | none =>
      Except.error ⟨400, "Either new_call must be true or a message must be provided."⟩

/-- Embeds `chat_endpoint`: resolves the session, builds the pre-agent
history (possibly raising), runs the agent (`run_agent_with_history`, here the
parameter `agentF`), stores the updated history under the session id, and
answers the last AI reply.  A raised HTTPException leaves `sessions` as it
was, since the assignment at line 198 is never reached. -/
def chat_endpoint (agentF : SessionHistory → SessionHistory)
    (freshId : String) (sessions : Sessions) (p : ChatRequest) :
    Except HTTPError ChatResponse × Sessions :=
  match pre_agent_history sessions (resolved_session_id freshId p) p with
  | Except.error e => (Except.error e, sessions)
  | Except.ok h =>
    (Except.ok ⟨resolved_session_id freshId p, extract_last_ai_reply (agentF h)⟩,
     sset sessions (resolved_session_id freshId p) (agentF h))

/-- True exactly on `Except.error`. -/
def isErr {ε α : Type} : Except ε α → Bool
  | Except.error _ => true
  | Except.ok _ => false

/-- Sample record: Asha Rao with a 4500 rupee due. -/
def ashaRec : CustomerRecord :=
  { customer_name := "Asha Rao", total_due := 4500
    due_date := "2024-05-01", dpd := some 10 }

/-- The same record with a different outstanding amount. -/
def ashaRecHigher : CustomerRecord := { ashaRec with total_due := 9999 }

/-- A one-customer store used by concrete witnesses. -/
def sampleStore : Store := [("C1001", ashaRec)]

/-- C1.  `get_loan_details` answers a loan payload exactly when a record
exists for the id and the supplied name equals the stored `customer_name`;
on a match the payload carries the record's name, total due, due date and
dpd (defaulted to 0), and on any mismatch or absent record it answers the
payload `{"error": "No due amount found."}`. -/
theorem get_loan_details_iff_exact_name (s : Store) (cid name : String) :
    ((get_loan_details s cid name).isLoan = true ↔
      ∃ r, storeLookup s cid = some r ∧ r.customer_name = name)
    ∧ (∀ r, storeLookup s cid = some r → r.customer_name = name →
        get_loan_details s cid name =
          ToolPayload.loan r.customer_name r.total_due r.due_date (r.dpd.getD 0))
    ∧ (¬ (∃ r, storeLookup s cid = some r ∧ r.customer_name = name) →
        get_loan_details s cid name = ToolPayload.err "No due amount found.") := by
  unfold get_loan_details
  cases h : storeLookup s cid with
  | none =>
    refine ⟨by simp [ToolPayload.isLoan], by simp, fun _ => rfl⟩
  | some r =>
    by_cases hn : r.customer_name = name
    · subst hn
      simp [ToolPayload.isLoan]
    · constructor
      · simp only [beq_iff_eq]
        rw [if_neg hn]
        simp [ToolPayload.isLoan, hn]
      · constructor
        · intro r' hr' hname
          cases Option.some_inj.mp hr'
          exact absurd hname hn
        · intro _
          simp only [beq_iff_eq]
          rw [if_neg hn]

/-- C1 witness: on the sample store, the exact name "Asha Rao" yields the
loan payload, while a lowercase variant yields the error payload. -/
theorem get_loan_details_iff_exact_name_witness :
    get_loan_details sampleStore "C1001" "Asha Rao" =
      ToolPayload.loan "Asha Rao" 4500 "2024-05-01" 10
    ∧ get_loan_details sampleStore "C1001" "asha rao" =
      ToolPayload.err "No due amount found." := by
  constructor
  · exact (get_loan_details_iff_exact_name sampleStore "C1001" "Asha Rao").2.1
      ashaRec (by decide) (by decide)
  · exact (get_loan_details_iff_exact_name sampleStore "C1001" "asha rao").2.2
      (by decide)

/-- C4 counterexample: `get_customer_details` does not answer only the
record's name fields — it answers the entire record, so the payload contains
the loan amount: on the sample store the returned payload is the full record
with `total_due = 4500`, and changing only `total_due` changes the payload. -/
theorem get_customer_details_returns_loan_fields :
    get_customer_details [("C1001", ashaRec)] "C1001" = ToolPayload.record ashaRec
    ∧ ashaRec.total_due = 4500
    ∧ get_customer_details [("C1001", ashaRec)] "C1001" ≠
        get_customer_details [("C1001", ashaRecHigher)] "C1001" := by
  refine ⟨rfl, rfl, ?_⟩
  decide

/-- C4 amended.  `get_customer_details` answers the full matching
CustomerRecord (all fields, loan fields included) when the id is present, and
the payload `{"error": "Customer ID not found"}` when it is absent. -/
theorem get_customer_details_full_record (s : Store) (cid : String) :
    (∀ r, storeLookup s cid = some r →
      get_customer_details s cid = ToolPayload.record r)
    ∧ (storeLookup s cid = none →
      get_customer_details s cid = ToolPayload.err "Customer ID not found") := by
  unfold get_customer_details
  cases h : storeLookup s cid with
  | none => exact ⟨by simp, fun _ => rfl⟩
  | some r =>
    refine ⟨fun r' hr' => ?_, by simp⟩
    cases Option.some_inj.mp hr'
    rfl

/-- C4 amended witness: on the sample store, a present id yields the full
record and an absent id yields the not-found payload. -/
theorem get_customer_details_full_record_witness :
    get_customer_details sampleStore "C1001" = ToolPayload.record ashaRec
    ∧ get_customer_details sampleStore "C9999" =
        ToolPayload.err "Customer ID not found" := by
  constructor
  · exact (get_customer_details_full_record sampleStore "C1001").1 ashaRec (by decide)
  · exact (get_customer_details_full_record sampleStore "C9999").2 (by decide)

/-- C5.  `get_customer_details` is total: every call answers either the
stored record or exactly the typed payload `{"error": "Customer ID not
found"}`; the unknown-key case is data, never an exception. -/
theorem get_customer_details_no_throw (s : Store) (cid : String) :
    (∃ r, storeLookup s cid = some r ∧
      get_customer_details s cid = ToolPayload.record r)
    ∨ (storeLookup s cid = none ∧
      get_customer_details s cid = ToolPayload.err "Customer ID not found") := by
  unfold get_customer_details
  cases h : storeLookup s cid with
  | none => exact Or.inr ⟨rfl, rfl⟩
  | some r => exact Or.inl ⟨r, rfl, rfl⟩

/-- C8.  `get_customer_details` is read-only and idempotent: any sequence of
lookups leaves the store exactly as it was, and a repeated lookup of the same
id answers the identical payload. -/
theorem get_customer_details_idempotent (s : Store) (cids : List String)
    (cid : String) :
    runLookups s cids = s
    ∧ (get_customer_details_st ((get_customer_details_st s cid).2) cid).1 =
        (get_customer_details_st s cid).1 := by
  constructor
  · induction cids with
    | nil => rfl
    | cons c cs ih => exact ih
  · rfl

theorem lastAIScan_append_noAI (l l2 : List BaseMessage)
    (h : ∀ m ∈ l, m.isAI = false) : lastAIScan (l ++ l2) = lastAIScan l2 := by
  induction l with
  | nil => rfl
  | cons m rest ih =>
    have hm := h m (List.mem_cons_self m rest)
    have hrest : ∀ x ∈ rest, x.isAI = false :=
      fun x hx => h x (List.mem_cons_of_mem m hx)
    cases m with
    | ai c => simp [BaseMessage.isAI] at hm
    | human c => exact ih hrest
    | toolMsg c => exact ih hrest
    | system c => exact ih hrest

/-- C7.  `extract_last_ai_reply` answers the content of the most recent AI
message, found scanning backward; a history with no AI message answers the
fixed fallback string. -/
theorem extract_last_ai_reply_spec (history : SessionHistory) :
    ((∀ m ∈ history, m.isAI = false) →
      extract_last_ai_reply history = "I'm sorry, I couldn't generate a response.")
    ∧ (∀ pre c post, history = pre ++ BaseMessage.ai c :: post →
        (∀ m ∈ post, m.isAI = false) → extract_last_ai_reply history = c) := by
  constructor
  · intro h
    have hrev : ∀ m ∈ history.reverse, m.isAI = false := by
      intro m hm
      exact h m (List.mem_reverse.mp hm)
    have := lastAIScan_append_noAI history.reverse [] hrev
    simpa [extract_last_ai_reply, lastAIScan, fallbackReply] using this
  · intro pre c post heq hpost
    subst heq
    have hrev : ∀ m ∈ post.reverse, m.isAI = false := by
      intro m hm
      exact hpost m (List.mem_reverse.mp hm)
    unfold extract_last_ai_reply
    rw [List.reverse_append, List.reverse_cons, List.append_assoc]
    rw [lastAIScan_append_noAI post.reverse _ hrev]
    rfl

/-- C7 witness: the later AI turn wins, and an AI-free history yields the
fallback string. -/
theorem extract_last_ai_reply_spec_witness :
    extract_last_ai_reply [BaseMessage.human "a", BaseMessage.ai "x",
      BaseMessage.ai "y", BaseMessage.human "b"] = "y"
    ∧ extract_last_ai_reply [BaseMessage.human "a"] =
      "I'm sorry, I couldn't generate a response." := by
  constructor
  · exact (extract_last_ai_reply_spec _).2
      [BaseMessage.human "a", BaseMessage.ai "x"] "y" [BaseMessage.human "b"]
      rfl (by decide)
  · exact (extract_last_ai_reply_spec _).1 (by decide)

theorem chat_endpoint_isErr_eq (agentF : SessionHistory → SessionHistory)
    (freshId : String) (sessions : Sessions) (p : ChatRequest) :
    isErr (chat_endpoint agentF freshId sessions p).1 =
      isErr (pre_agent_history sessions (resolved_session_id freshId p) p) := by
  unfold chat_endpoint
  cases hp : pre_agent_history sessions (resolved_session_id freshId p) p with
  | error e => simp [hp, isErr]
  | ok h => simp [hp, isErr]

/-- C10.  When the endpoint raises an HTTPException (either 400 case), the
session store is left exactly as it was: the assignment
`sessions[session_id] = history` at line 198 is never reached. -/
theorem chat_error_preserves_sessions (agentF : SessionHistory → SessionHistory)
    (freshId : String) (sessions : Sessions) (p : ChatRequest)
    (h : isErr (chat_endpoint agentF freshId sessions p).1 = true) :
    (chat_endpoint agentF freshId sessions p).2 = sessions := by
  unfold chat_endpoint at h ⊢
  cases hp : pre_agent_history sessions (resolved_session_id freshId p) p with
  | error e => simp [hp]
  | ok h2 => simp [hp, isErr] at h

/-- C10 witness: a continuing request with no message errors and leaves the
one stored session intact. -/
theorem chat_error_preserves_sessions_witness :
    isErr ((chat_endpoint (fun h => h) "f" [("s1", [BaseMessage.ai "old"])]
      ⟨some "s1", none, none, false⟩).1) = true
    ∧ (chat_endpoint (fun h => h) "f" [("s1", [BaseMessage.ai "old"])]
      ⟨some "s1", none, none, false⟩).2 = [("s1", [BaseMessage.ai "old"])] := by
  refine ⟨rfl, ?_⟩
  exact chat_error_preserves_sessions (fun h => h) "f"
    [("s1", [BaseMessage.ai "old"])] ⟨some "s1", none, none, false⟩ rfl

/-- C9.  A request with `new_call` true and a non-empty `customer_id` resets
the history before the agent runs: the agent receives exactly the singleton
seed turn `[HumanMessage(init_text customer_id)]` whatever was stored for the
session, and the stored state afterwards is the agent's output on that
singleton — the prior turns are discarded entirely. -/
theorem chat_new_call_discards_history (agentF : SessionHistory → SessionHistory)
    (freshId : String) (sessions : Sessions) (p : ChatRequest) (cid : String)
    (hcid : p.customer_id = some cid) (hne : cid ≠ "") (hnc : p.new_call = true) :
    chat_endpoint agentF freshId sessions p =
      (Except.ok ⟨resolved_session_id freshId p,
        extract_last_ai_reply (agentF [BaseMessage.human (init_text cid)])⟩,
       sset sessions (resolved_session_id freshId p)
         (agentF [BaseMessage.human (init_text cid)])) := by
  have hpre : pre_agent_history sessions (resolved_session_id freshId p) p =
      Except.ok [BaseMessage.human (init_text cid)] := by
    unfold pre_agent_history
    rw [hnc, hcid]
    simp [hne]
  simp [chat_endpoint, hpre]

/-- C9 witness: on a session already holding an AI turn, a new call for
C1001 hands the agent only the seed turn and overwrites the stored state. -/
theorem chat_new_call_discards_history_witness :
    chat_endpoint (fun h => h ++ [BaseMessage.ai "done"]) "f"
      [("s1", [BaseMessage.ai "old"])] ⟨some "s1", some "C1001", none, true⟩ =
      (Except.ok ⟨"s1", "done"⟩,
       [("s1", [BaseMessage.human (init_text "C1001"), BaseMessage.ai "done"])]) := by
  have h := chat_new_call_discards_history (fun h => h ++ [BaseMessage.ai "done"])
    "f" [("s1", [BaseMessage.ai "old"])] ⟨some "s1", some "C1001", none, true⟩
    "C1001" rfl (by decide) rfl
  rw [h]
  rfl

/-- C2 counterexample: a request with an unknown session_id, a message, and
new_call false is routed to the new-call branch; with customer_id absent the
endpoint returns the 400 error, contradicting the claim that no such request
returns an error. -/
theorem chat_unknown_session_can_error :
    sget ([] : Sessions) "ghost" = none
    ∧ (chat_endpoint (fun h => h) "f" []
        ⟨some "ghost", none, some "hello", false⟩).1 =
      Except.error ⟨400, "customer_id is required to start a new call."⟩ := by
  exact ⟨rfl, rfl⟩

/-- C2 amended.  A request whose resolved session_id has no stored history is
processed exactly as a new call (the endpoint's behaviour is identical to the
same request with new_call set), and whenever a non-empty customer_id is
supplied the endpoint does not return an error. -/
theorem chat_unknown_session_as_new_call (agentF : SessionHistory → SessionHistory)
    (freshId : String) (sessions : Sessions) (p : ChatRequest)
    (h : sget sessions (resolved_session_id freshId p) = none) :
    chat_endpoint agentF freshId sessions p =
      chat_endpoint agentF freshId sessions { p with new_call := true }
    ∧ (∀ cid, p.customer_id = some cid → cid ≠ "" →
        isErr (chat_endpoint agentF freshId sessions p).1 = false) := by
  have hsid : resolved_session_id freshId { p with new_call := true } =
      resolved_session_id freshId p := rfl
  have hpre : ∀ sid : String, sget sessions sid = none →
      ∀ q : ChatRequest, q.customer_id = p.customer_id →
      pre_agent_history sessions sid q =
        match p.customer_id with
        | some cid =>
          if cid == "" then
            Except.error ⟨400, "customer_id is required to start a new call."⟩
          else Except.ok [BaseMessage.human (init_text cid)]
        | none =>
          Except.error ⟨400, "customer_id is required to start a new call."⟩ := by
    intro sid hnone q hq
    unfold pre_agent_history
    rw [hnone, hq]
    simp
  constructor
  · unfold chat_endpoint
    rw [hsid, hpre _ h p rfl, hpre _ h { p with new_call := true } rfl]
  · intro cid hcid hne
    rw [chat_endpoint_isErr_eq, hpre _ h p rfl, hcid]
    simp [isErr, hne]

/-- C2 amended witness: continuing an unknown session with a message and a
customer_id behaves as the same request with new_call true and succeeds. -/
theorem chat_unknown_session_as_new_call_witness :
    chat_endpoint (fun h => h) "f" [("other", [BaseMessage.ai "x"])]
      ⟨some "ghost", some "C1001", some "hi", false⟩ =
      chat_endpoint (fun h => h) "f" [("other", [BaseMessage.ai "x"])]
        ⟨some "ghost", some "C1001", some "hi", true⟩
    ∧ isErr ((chat_endpoint (fun h => h) "f" [("other", [BaseMessage.ai "x"])]
        ⟨some "ghost", some "C1001", some "hi", false⟩).1) = false := by
  have h := chat_unknown_session_as_new_call (fun h => h) "f"
    [("other", [BaseMessage.ai "x"])] ⟨some "ghost", some "C1001", some "hi", false⟩
    rfl
  exact ⟨h.1, h.2 "C1001" rfl (by decide)⟩

/-- C3 counterexample: a new call whose customer_id is present but the empty
string is rejected with the 400 error, although the claim's condition
(customer_id absent) does not hold — Python truthiness treats `""` like
`None`. -/
theorem chat_error_despite_present_customer_id :
    (chat_endpoint (fun h => h) "f" []
      { session_id := none, customer_id := some "", message := none,
        new_call := true }).1 =
      Except.error ⟨400, "customer_id is required to start a new call."⟩
    ∧ (ChatRequest.mk none (some "") none true).customer_id ≠ none := by
  exact ⟨rfl, by decide⟩

/-- C3 amended.  The endpoint fails with the 400 InvalidRequest error iff
either (a) the new-call path is taken (new_call true, or no stored history)
and customer_id is absent or empty, or (b) the continuing path is taken and
message is absent or empty; otherwise exactly one of the two paths executes:
on the new-call path the agent is handed the singleton seed turn, on the
continuing path the stored history with the message appended as a human
turn. -/
theorem chat_invalid_request_iff (agentF : SessionHistory → SessionHistory)
    (freshId : String) (sessions : Sessions) (p : ChatRequest) :
    (isErr (chat_endpoint agentF freshId sessions p).1 = true ↔
      (newCallPath sessions (resolved_session_id freshId p) p = true ∧
        truthy p.customer_id = false)
      ∨ (newCallPath sessions (resolved_session_id freshId p) p = false ∧
        truthy p.message = false))
    ∧ (∀ cid, newCallPath sessions (resolved_session_id freshId p) p = true →
        p.customer_id = some cid → cid ≠ "" →
        pre_agent_history sessions (resolved_session_id freshId p) p =
          Except.ok [BaseMessage.human (init_text cid)])
    ∧ (∀ m, newCallPath sessions (resolved_session_id freshId p) p = false →
        p.message = some m → m ≠ "" →
        pre_agent_history sessions (resolved_session_id freshId p) p =
          Except.ok ((sget sessions (resolved_session_id freshId p)).getD [] ++
            [BaseMessage.human m])) := by
  refine ⟨?_, ?_, ?_⟩
  · rw [chat_endpoint_isErr_eq]
    unfold pre_agent_history newCallPath
    cases hb : p.new_call ||
        ((sget sessions (resolved_session_id freshId p)).getD []).isEmpty with
    | true =>
      cases hc : p.customer_id with
      | none => simp [isErr, truthy]
      | some cid =>
        cases hcc : cid == "" with
        | true => simp [isErr, truthy, bne, hcc]
        | false => simp [isErr, truthy, bne, hcc]
    | false =>
      cases hm : p.message with
      | none => simp [isErr, truthy]
      | some m =>
        cases hmm : m == "" with
        | true => simp [isErr, truthy, bne, hmm]
        | false => simp [isErr, truthy, bne, hmm]
  · intro cid hb hcid hne
    unfold newCallPath at hb
    unfold pre_agent_history
    rw [hb, hcid]
    simp [hne]
  · intro m hb hm hne
    unfold newCallPath at hb
    unfold pre_agent_history
    rw [hb, hm]
    simp [hne]

/-- C3 amended witness: a new call without customer_id errors, and a new
call for C1001 executes the seeding path. -/
theorem chat_invalid_request_iff_witness :
    isErr ((chat_endpoint (fun h => h) "f" []
      { session_id := none, customer_id := none, message := none,
        new_call := true }).1) = true
    ∧ pre_agent_history []
        (resolved_session_id "f"
          { session_id := none, customer_id := some "C1001", message := none,
            new_call := true })
        { session_id := none, customer_id := some "C1001", message := none,
          new_call := true } =
      Except.ok [BaseMessage.human (init_text "C1001")] := by
  constructor
  · exact (chat_invalid_request_iff (fun h => h) "f" []
      { session_id := none, customer_id := none, message := none,
        new_call := true }).1.mpr (Or.inl ⟨rfl, rfl⟩)
  · exact (chat_invalid_request_iff (fun h => h) "f" []
      { session_id := none, customer_id := some "C1001", message := none,
        new_call := true }).2.1 "C1001" rfl rfl (by decide)

end FinanceLoanChatbot
